import Mathlib

/-!
Verification of the GPU power-limit control core of `nvidia-power-control`
(`main.go`): the inventory cache (`initNVML` / `getGPUInfo`), the clamped
power-limit setter (`setPowerLimit`), and the mode dispatcher
(`setPowerLimitsHandler`).

The NVML device gateway is modelled as a structure of response functions
together with an explicit per-device current-limit state (milliwatts); a
successful `DeviceSetPowerManagementLimit` stores the written value and a
successful `DeviceGetPowerManagementLimit` reads it back (the echo mock the
specification stipulates for testing). All NVML milliwatt quantities are
`uint32` in Go; the conversion `limitWatts * 1000` therefore wraps modulo
`2^32`, which the embedding makes explicit.
-/

/-- `2^32`, the modulus of Go `uint32` arithmetic. -/
def UINT32 : Nat := 4294967296

/-- One cache record per device: Go struct `GPUInfo` (watt-denominated,
derived from the gateway milliwatt values by integer division by 1000). -/
structure GPUInfo where
  index : Int
  name : String
  powerLimit : Nat
  minLimit : Nat
  maxLimit : Nat
  powerUsage : Nat
  supported : Bool
  deriving Repr, DecidableEq

/-- The Go zero value of `GPUInfo`, left in a freshly made cache slot that
is never assigned. -/
def GPUInfo.zero : GPUInfo :=
  { index := 0, name := "", powerLimit := 0, minLimit := 0, maxLimit := 0,
    powerUsage := 0, supported := false }

/-- Gateway state: the current power-management limit, in milliwatts, stored
per device index. -/
abbrev GwState := Int → Nat

/-- Static behaviour of the NVML gateway. `none` / `false` encode a
non-`SUCCESS` return of the corresponding NVML call; `pmEnabled i = some b`
means the power-management-mode query succeeds and `b` says whether the
mode equals `FEATURE_ENABLED`. -/
structure Gateway where
  initOk : Bool
  deviceCount : Option Nat
  handleOk : Int → Bool
  nameRes : Int → Option String
  pmEnabled : Int → Option Bool
  curLimitOk : Int → Bool
  constraints : Int → Option (Nat × Nat)
  usage : Int → Option Nat
  writeOk : Int → Nat → Bool

/-- `getGPUInfo(index)` from `main.go`: handle, name (fallback `Unknown`),
support flag (early return when unsupported), current limit, constraints,
best-effort usage. Milliwatts are converted to watts by division by 1000.
The current limit is read from the gateway state `st`. -/
def getGPUInfo (gw : Gateway) (st : GwState) (index : Int) : Except String GPUInfo :=
  if gw.handleOk index then
    let nm := (gw.nameRes index).getD "Unknown"
    match gw.pmEnabled index with
    | none => .error "failed to get power management mode"
    | some enabled =>
      if enabled then
        if gw.curLimitOk index then
          match gw.constraints index with
          | none => .error "failed to get power limit constraints"
          | some (minL, maxL) =>
            let pu := match gw.usage index with
              | some p => p / 1000
              | none => 0
            .ok { index := index, name := nm, powerLimit := st index / 1000,
                  minLimit := minL / 1000, maxLimit := maxL / 1000,
                  powerUsage := pu, supported := true }
        else .error "failed to get current power limit"
      else
        .ok { index := index, name := nm, powerLimit := 0, minLimit := 0,
              maxLimit := 0, powerUsage := 0, supported := false }
  else .error "failed to get handle"

/-- The milliwatt value `setPowerLimit` hands to the hardware write:
`limitWatts * 1000` computed in `uint32` (hence reduced mod `2^32`),
then clamped into `[minL, maxL]`. -/
def clampMW (limitWatts minL maxL : Nat) : Nat :=
  let limitMW := (limitWatts * 1000) % UINT32
  if limitMW < minL then minL
  else if maxL < limitMW then maxL
  else limitMW

/-- Point update of the gateway state after a successful write. -/
def updState (st : GwState) (i : Int) (v : Nat) : GwState :=
  fun j => if j = i then v else st j

/-- Everything observable about one `setPowerLimit` call: its Go return
value, the milliwatt value passed to `DeviceSetPowerManagementLimit`
(`none` when the write is never invoked), and the gateway state after. -/
structure SetOutcome where
  result : Except String GPUInfo
  written : Option Nat
  state : GwState

/-- `setPowerLimit(index, limitWatts)` from `main.go`: handle, support
check, constraints, uint32 watts-to-milliwatts conversion, unconditional
clamp, hardware write, re-read of the device record. -/
def setPowerLimit (gw : Gateway) (st : GwState) (index : Int) (limitWatts : Nat) : SetOutcome :=
  if gw.handleOk index then
    match gw.pmEnabled index with
    | none => ⟨.error "failed to get power management mode", none, st⟩
    | some enabled =>
      if enabled then
        match gw.constraints index with
        | none => ⟨.error "failed to get power limit constraints", none, st⟩
        | some (minL, maxL) =>
          let limitMW := clampMW limitWatts minL maxL
          if gw.writeOk index limitMW then
            let st2 := updState st index limitMW
            ⟨getGPUInfo gw st2 index, some limitMW, st2⟩
          else ⟨.error "failed to set power limit", some limitMW, st⟩
      else ⟨.error "power management not supported", none, st⟩
  else ⟨.error "failed to get handle", none, st⟩

/-- Cache built by the loop in `initNVML`: `make([]GPUInfo, count)` leaves
the Go zero value in every slot, and a slot is overwritten only when
`getGPUInfo` succeeds (on error the loop logs a warning and continues). -/
def buildCache (gw : Gateway) (st : GwState) (count : Nat) : List GPUInfo :=
  (List.range count).map fun i =>
    match getGPUInfo gw st (Int.ofNat i) with
    | .ok info => info
    | .error _ => GPUInfo.zero

/-- `initNVML()` from `main.go`: NVML init, device count, fresh cache. -/
def initNVML (gw : Gateway) (st : GwState) : Except String (List GPUInfo) :=
  if gw.initOk then
    match gw.deviceCount with
    | none => .error "failed to get device count"
    | some count => .ok (buildCache gw st count)
  else .error "failed to init NVML"

/-- The process-wide `gpuCache` after a refresh attempt: replaced by the
fresh snapshot on success, untouched when `initNVML` returns an error. -/
def refreshedCache (gw : Gateway) (st : GwState) (old : List GPUInfo) : List GPUInfo :=
  match initNVML gw st with
  | .ok c => c
  | .error _ => old

/-- Body of a `POST /api/power` request (Go struct `PowerLimitRequest`);
`manualLimits` is one enumeration of the Go map, whose iteration order
carries no guarantee. -/
structure PowerLimitRequest where
  mode : String
  powerLimit : Nat
  manualLimits : List (Int × Nat)

/-- Result of one dispatch loop: the `updatedGPUs` list, the sequence of
`setPowerLimit` invocations `(index, watts)` it performed, and the final
gateway state. -/
structure BatchOutcome where
  updated : List GPUInfo
  calls : List (Int × Nat)
  state : GwState

/-- The Go bounds check `gpuIndex >= 0 && gpuIndex < count` of manual mode. -/
def inRange (count : Nat) (p : Int × Nat) : Bool :=
  decide (0 ≤ p.1 ∧ p.1 < (count : Int))

/-- Mode `all` loop of `setPowerLimitsHandler`: one setter call per index,
failures logged and skipped (`continue`), successes appended in order. -/
def applyAll (gw : Gateway) (w : Nat) (st : GwState) : List Int → BatchOutcome
  | [] => ⟨[], [], st⟩
  | i :: rest =>
    let out := setPowerLimit gw st i w
    let tail := applyAll gw w out.state rest
    match out.result with
    | .ok info => ⟨info :: tail.updated, (i, w) :: tail.calls, tail.state⟩
    | .error _ => ⟨tail.updated, (i, w) :: tail.calls, tail.state⟩

/-- Mode `manual` loop of `setPowerLimitsHandler`: out-of-range indices are
skipped with a warning and no setter call; in-range indices are passed to
the setter, failures logged and skipped. -/
def applyManual (gw : Gateway) (count : Nat) (st : GwState) : List (Int × Nat) → BatchOutcome
  | [] => ⟨[], [], st⟩
  | p :: rest =>
    if inRange count p then
      let out := setPowerLimit gw st p.1 p.2
      let tail := applyManual gw count out.state rest
      match out.result with
      | .ok info => ⟨info :: tail.updated, p :: tail.calls, tail.state⟩
      | .error _ => ⟨tail.updated, p :: tail.calls, tail.state⟩
    else applyManual gw count st rest

/-- Observable outcome of the dispatch part of `setPowerLimitsHandler`:
its HTTP-level response (`.error` for the 4xx/5xx branches), the setter
calls made, and the final gateway state. -/
structure DispatchOutcome where
  response : Except String (List GPUInfo)
  calls : List (Int × Nat)
  state : GwState

/-- `setPowerLimitsHandler` from `main.go` after request decoding: device
count query, then dispatch on the mode string; an unknown mode is rejected
before any device is touched. (The best-effort cache refresh the handler
performs afterwards does not invoke the setter and is not part of the
dispatch outcome.) -/
def setPowerLimitsHandler (gw : Gateway) (st : GwState) (req : PowerLimitRequest) : DispatchOutcome :=
  match gw.deviceCount with
  | none => ⟨.error "Failed to get device count", [], st⟩
  | some count =>
    if req.mode = "all" then
      let b := applyAll gw req.powerLimit st ((List.range count).map Int.ofNat)
      ⟨.ok b.updated, b.calls, b.state⟩
    else if req.mode = "manual" then
      let b := applyManual gw count st req.manualLimits
      ⟨.ok b.updated, b.calls, b.state⟩
    else ⟨.error "Invalid mode", [], st⟩

/-- The Go return value of `setPowerLimit` does not depend on the incoming
gateway state (on success the re-read sees exactly the value just written),
so it is a function of the static gateway alone. -/
def setResult (gw : Gateway) (i : Int) (w : Nat) : Except String GPUInfo :=
  (setPowerLimit gw (fun _ => 0) i w).result

/-- Success projection used to collect `updatedGPUs`. -/
def resOpt (e : Except String GPUInfo) : Option GPUInfo :=
  match e with
  | .ok info => some info
  | .error _ => none

/-- Whether a setter call succeeds. -/
def resOk (e : Except String GPUInfo) : Bool :=
  match e with
  | .ok _ => true
  | .error _ => false

/-! ### Basic lemmas about the setter -/

theorem getGPUInfo_congr (gw : Gateway) (st st' : GwState) (i : Int)
    (h : st i = st' i) : getGPUInfo gw st i = getGPUInfo gw st' i := by
  unfold getGPUInfo
  rw [h]

theorem updState_self (st : GwState) (i : Int) (v : Nat) : updState st i v i = v := by
  simp [updState]

theorem setPowerLimit_result_eq (gw : Gateway) (st : GwState) (i : Int) (w : Nat) :
    (setPowerLimit gw st i w).result = setResult gw i w := by
  unfold setResult setPowerLimit
  by_cases hh : gw.handleOk i <;> simp [hh]
  cases hp : gw.pmEnabled i with
  | none => rfl
  | some enabled =>
    cases enabled <;> simp
    cases hc : gw.constraints i with
    | none => rfl
    | some mm =>
      obtain ⟨minL, maxL⟩ := mm
      by_cases hw : gw.writeOk i (clampMW w minL maxL) <;> simp [hw]
      exact getGPUInfo_congr gw _ _ i (by rw [updState_self, updState_self])

theorem setPowerLimit_written_eq (gw : Gateway) (st st' : GwState) (i : Int) (w : Nat) :
    (setPowerLimit gw st i w).written = (setPowerLimit gw st' i w).written := by
  unfold setPowerLimit
  by_cases hh : gw.handleOk i <;> simp [hh]
  cases hp : gw.pmEnabled i with
  | none => rfl
  | some enabled =>
    cases enabled <;> simp
    cases hc : gw.constraints i with
    | none => rfl
    | some mm =>
      obtain ⟨minL, maxL⟩ := mm
      by_cases hw : gw.writeOk i (clampMW w minL maxL) <;> simp [hw]

/-! ### Characterization of the dispatch loops -/

theorem applyAll_spec (gw : Gateway) (w : Nat) :
    ∀ (is : List Int) (st : GwState),
      (applyAll gw w st is).updated = is.filterMap (fun i => resOpt (setResult gw i w)) ∧
      (applyAll gw w st is).calls = is.map (fun i => (i, w)) := by
  intro is
  induction is with
  | nil => intro st; exact ⟨rfl, rfl⟩
  | cons i rest ih =>
    intro st
    have hres := setPowerLimit_result_eq gw st i w
    obtain ⟨hu, hc⟩ := ih (setPowerLimit gw st i w).state
    simp only [applyAll, List.filterMap_cons, List.map_cons]
    cases hr : setResult gw i w with
    | ok info => simp [hr, resOpt, hres, hu, hc]
    | error e => simp [hr, resOpt, hres, hu, hc]

theorem applyManual_spec (gw : Gateway) (count : Nat) :
    ∀ (L : List (Int × Nat)) (st : GwState),
      (applyManual gw count st L).updated =
        (L.filter (inRange count)).filterMap (fun p => resOpt (setResult gw p.1 p.2)) ∧
      (applyManual gw count st L).calls = L.filter (inRange count) := by
  intro L
  induction L with
  | nil => intro st; exact ⟨rfl, rfl⟩
  | cons p rest ih =>
    intro st
    by_cases hin : inRange count p
    · have hres := setPowerLimit_result_eq gw st p.1 p.2
      obtain ⟨hu, hc⟩ := ih (setPowerLimit gw st p.1 p.2).state
      simp only [applyManual, hin, if_true, List.filter_cons, List.filterMap_cons]
      cases hr : setResult gw p.1 p.2 with
      | ok info => simp [hr, resOpt, hres, hu, hc, hin]
      | error e => simp [hr, resOpt, hres, hu, hc, hin]
    · obtain ⟨hu, hc⟩ := ih st
      simp only [applyManual, hin, if_false, List.filter_cons]
      simp [hin, hu, hc]

/-! ### Clamp and success characterizations -/

theorem clampMW_mem (w minL maxL : Nat) (hmm : minL ≤ maxL) :
    minL ≤ clampMW w minL maxL ∧ clampMW w minL maxL ≤ maxL := by
  unfold clampMW
  by_cases h1 : (w * 1000) % UINT32 < minL
  · simp only [h1, if_true]
    exact ⟨Nat.le_refl _, hmm⟩
  · by_cases h2 : maxL < (w * 1000) % UINT32
    · simp only [h1, h2, if_true, if_false]
      exact ⟨hmm, Nat.le_refl _⟩
    · simp only [h1, h2, if_false]
      exact ⟨Nat.le_of_not_lt h1, Nat.le_of_not_lt h2⟩

theorem getGPUInfo_ok_fields (gw : Gateway) (st : GwState) (i : Int) (minL maxL : Nat)
    (info : GPUInfo) (hc : gw.constraints i = some (minL, maxL))
    (h : getGPUInfo gw st i = .ok info) (hsup : info.supported = true) :
    info.index = i ∧ info.powerLimit = st i / 1000 ∧
    info.minLimit = minL / 1000 ∧ info.maxLimit = maxL / 1000 := by
  by_cases hh : gw.handleOk i
  · rcases hp : gw.pmEnabled i with _ | enabled
    · simp [getGPUInfo, hh, hp] at h
    · cases enabled
      · simp [getGPUInfo, hh, hp] at h
        rw [← h] at hsup
        simp at hsup
      · by_cases hcl : gw.curLimitOk i
        · simp [getGPUInfo, hh, hp, hcl, hc] at h
          rw [← h]
          exact ⟨rfl, rfl, rfl, rfl⟩
        · simp [getGPUInfo, hh, hp, hcl] at h
  · simp [getGPUInfo, hh] at h

theorem getGPUInfo_ok_index (gw : Gateway) (st : GwState) (i : Int)
    (info : GPUInfo) (h : getGPUInfo gw st i = .ok info) : info.index = i := by
  by_cases hh : gw.handleOk i
  · rcases hp : gw.pmEnabled i with _ | enabled
    · simp [getGPUInfo, hh, hp] at h
    · cases enabled
      · simp [getGPUInfo, hh, hp] at h
        rw [← h]
      · by_cases hcl : gw.curLimitOk i
        · rcases hcon : gw.constraints i with _ | mm
          · simp [getGPUInfo, hh, hp, hcl, hcon] at h
          · obtain ⟨minL, maxL⟩ := mm
            simp [getGPUInfo, hh, hp, hcl, hcon] at h
            rw [← h]
        · simp [getGPUInfo, hh, hp, hcl] at h
  · simp [getGPUInfo, hh] at h

theorem setPowerLimit_ok_means (gw : Gateway) (st : GwState) (i : Int) (w : Nat)
    (info : GPUInfo) (h : (setPowerLimit gw st i w).result = .ok info) :
    ∃ minL maxL, gw.constraints i = some (minL, maxL) ∧
      gw.handleOk i = true ∧ gw.pmEnabled i = some true ∧
      gw.writeOk i (clampMW w minL maxL) = true ∧
      getGPUInfo gw (updState st i (clampMW w minL maxL)) i = .ok info := by
  by_cases hh : gw.handleOk i
  · rcases hp : gw.pmEnabled i with _ | enabled
    · simp [setPowerLimit, hh, hp] at h
    · cases enabled
      · simp [setPowerLimit, hh, hp] at h
      · rcases hcon : gw.constraints i with _ | mm
        · simp [setPowerLimit, hh, hp, hcon] at h
        · obtain ⟨minL, maxL⟩ := mm
          by_cases hw : gw.writeOk i (clampMW w minL maxL)
          · refine ⟨minL, maxL, rfl, hh, rfl, hw, ?_⟩
            simpa [setPowerLimit, hh, hp, hcon, hw] using h
          · simp [setPowerLimit, hh, hp, hcon, hw] at h
  · simp [setPowerLimit, hh] at h

theorem setPowerLimit_state_of_write (gw : Gateway) (st : GwState) (i : Int)
    (w minL maxL : Nat)
    (hh : gw.handleOk i = true) (hp : gw.pmEnabled i = some true)
    (hc : gw.constraints i = some (minL, maxL))
    (hw : gw.writeOk i (clampMW w minL maxL) = true) :
    (setPowerLimit gw st i w).state = updState st i (clampMW w minL maxL) := by
  unfold setPowerLimit
  simp [hh, hp, hc, hw]

theorem setPowerLimit_state_cases (gw : Gateway) (st : GwState) (i : Int) (w : Nat) :
    (setPowerLimit gw st i w).state = st ∨
    ∃ minL maxL, gw.constraints i = some (minL, maxL) ∧
      gw.handleOk i = true ∧ gw.pmEnabled i = some true ∧
      gw.writeOk i (clampMW w minL maxL) = true ∧
      (setPowerLimit gw st i w).state = updState st i (clampMW w minL maxL) := by
  by_cases hh : gw.handleOk i
  · rcases hp : gw.pmEnabled i with _ | enabled
    · left; simp [setPowerLimit, hh, hp]
    · cases enabled
      · left; simp [setPowerLimit, hh, hp]
      · rcases hcon : gw.constraints i with _ | mm
        · left; simp [setPowerLimit, hh, hp, hcon]
        · obtain ⟨minL, maxL⟩ := mm
          by_cases hw : gw.writeOk i (clampMW w minL maxL)
          · right
            exact ⟨minL, maxL, rfl, hh, rfl, hw,
              setPowerLimit_state_of_write gw st i w minL maxL hh hp hcon hw⟩
          · left; simp [setPowerLimit, hh, hp, hcon, hw]
  · left; simp [setPowerLimit, hh]

theorem updState_idem (st : GwState) (i : Int) (v : Nat) :
    updState (updState st i v) i v = updState st i v := by
  funext j
  by_cases hj : j = i <;> simp [updState, hj]

/-! ### Small facts about result projections and filterMap lengths -/

theorem resOpt_none_of_not_ok (e : Except String GPUInfo) (h : resOk e = false) :
    resOpt e = none := by
  cases e <;> simp [resOk, resOpt] at h ⊢

theorem resOpt_isSome_of_ok (e : Except String GPUInfo) (h : resOk e = true) :
    (resOpt e).isSome := by
  cases e <;> simp [resOk, resOpt] at h ⊢

theorem resOk_of_ok (e : Except String GPUInfo) (info : GPUInfo) (h : e = .ok info) :
    resOk e = true := by
  rw [h]; rfl

theorem filterMap_length_all_some {α β : Type} (f : α → Option β) :
    ∀ l : List α, (∀ x ∈ l, (f x).isSome) → (l.filterMap f).length = l.length := by
  intro l
  induction l with
  | nil => intro _; rfl
  | cons a t ih =>
    intro h
    obtain ⟨b, hb⟩ := Option.isSome_iff_exists.mp (h a (List.mem_cons_self a t))
    simp [List.filterMap_cons, hb, ih (fun x hx => h x (List.mem_cons_of_mem a hx))]

theorem filterMap_length_drop_one {α β : Type} (f : α → Option β) (k : α) :
    ∀ l : List α, k ∈ l → l.Nodup → f k = none →
      (∀ x ∈ l, x ≠ k → (f x).isSome) →
      (l.filterMap f).length = l.length - 1 := by
  intro l
  induction l with
  | nil => intro h; cases h
  | cons a t ih =>
    intro hmem hnd hk hsome
    rcases List.mem_cons.mp hmem with rfl | hkt
    · have hall : ∀ x ∈ t, (f x).isSome := by
        intro x hx
        refine hsome x (List.mem_cons_of_mem _ hx) ?_
        intro hxa
        exact absurd hx (by rw [hxa]; exact (List.nodup_cons.mp hnd).1)
      simp [List.filterMap_cons, hk, filterMap_length_all_some f t hall]
    · have ha : (f a).isSome := by
        refine hsome a (List.mem_cons_self a t) ?_
        intro hak
        rw [hak] at hnd
        exact (List.nodup_cons.mp hnd).1 hkt
      obtain ⟨b, hb⟩ := Option.isSome_iff_exists.mp ha
      have ht := ih hkt (List.nodup_cons.mp hnd).2 hk
        (fun x hx hxk => hsome x (List.mem_cons_of_mem a hx) hxk)
      have htlen : 1 ≤ t.length := List.length_pos.mpr (List.ne_nil_of_mem hkt)
      simp only [List.filterMap_cons, hb, List.length_cons, ht]
      omega

/-! ### Concrete mock gateways used as witnesses and counterexamples -/

/-- A constant gateway state. -/
def mkState (v : Nat) : GwState := fun _ => v

/-- A healthy two-device gateway: constraints 100000..300000 milliwatts
(100 W to 300 W), every query succeeds, every write accepted. -/
def gwStd : Gateway :=
  { initOk := true, deviceCount := some 2,
    handleOk := fun _ => true,
    nameRes := fun i => some (if i = 0 then "GPU-A" else "GPU-B"),
    pmEnabled := fun _ => some true,
    curLimitOk := fun _ => true,
    constraints := fun _ => some (100000, 300000),
    usage := fun _ => some 50000,
    writeOk := fun _ _ => true }

/-- `gwStd` whose current-power-limit read fails on device 1. -/
def gwCurFail : Gateway :=
  { gwStd with curLimitOk := fun i => decide (i ≠ 1) }

/-- `gwStd` reporting power management disabled. -/
def gwUnsup : Gateway :=
  { gwStd with pmEnabled := fun _ => some false }

/-- `gwStd` whose device-count query fails. -/
def gwNoCount : Gateway :=
  { gwStd with deviceCount := none }

/-- `gwStd` rejecting every hardware write on device 1. -/
def gwWriteFail1 : Gateway :=
  { gwStd with writeOk := fun i _ => decide (i ≠ 1) }

/-! ### Claims -/

/-- C1 counterexample: the claim reads the conversion as exact arithmetic
`w*1000`. For `w = 4294968` (a legal `uint32`), `w*1000 = 4294968000`
exceeds the maximum constraint `300000`, so the claim predicts a write of
`maxMW = 300000`; the code converts in `uint32`, wraps to `704`, clamps
below the minimum, and writes `minMW = 100000` instead. -/
theorem C1_counterexample :
    gwStd.constraints 0 = some (100000, 300000) ∧
    (100000 : Nat) ≤ 300000 ∧
    4294968 * 1000 > 300000 ∧
    (setPowerLimit gwStd (mkState 200000) 0 4294968).written = some 100000 ∧
    (100000 : Nat) ≠ 300000 := by
  exact ⟨rfl, by norm_num, by norm_num, rfl, by norm_num⟩

/-- C1 (amended): with the conversion taken modulo `2^32` (the Go `uint32`
arithmetic), `setPowerLimit` issues the hardware write with `minMW` when
the wrapped value is below `minMW`, `maxMW` when above `maxMW`, and the
wrapped value otherwise; the written value always lies in `[minMW, maxMW]`
and a write is always issued — the setter never rejects a request for
being out of range. -/
theorem C1_clamped_write (gw : Gateway) (st : GwState) (i : Int) (w minMW maxMW : Nat)
    (hh : gw.handleOk i = true) (hp : gw.pmEnabled i = some true)
    (hc : gw.constraints i = some (minMW, maxMW)) (hmm : minMW ≤ maxMW) :
    (setPowerLimit gw st i w).written =
      some (if (w * 1000) % UINT32 < minMW then minMW
            else if maxMW < (w * 1000) % UINT32 then maxMW
            else (w * 1000) % UINT32) ∧
    ∀ v, (setPowerLimit gw st i w).written = some v → minMW ≤ v ∧ v ≤ maxMW := by
  have hw : (setPowerLimit gw st i w).written = some (clampMW w minMW maxMW) := by
    unfold setPowerLimit
    by_cases hwr : gw.writeOk i (clampMW w minMW maxMW) <;> simp [hh, hp, hc, hwr]
  constructor
  · rw [hw]
    rfl
  · intro v hv
    rw [hw] at hv
    rw [← Option.some.inj hv]
    exact clampMW_mem w minMW maxMW hmm

theorem C1_clamped_write_witness :
    ((setPowerLimit gwStd (mkState 200000) 0 150).written =
      some (if (150 * 1000) % UINT32 < 100000 then 100000
            else if 300000 < (150 * 1000) % UINT32 then 300000
            else (150 * 1000) % UINT32) ∧
    ∀ v, (setPowerLimit gwStd (mkState 200000) 0 150).written = some v →
      100000 ≤ v ∧ v ≤ 300000) :=
  C1_clamped_write gwStd (mkState 200000) 0 150 100000 300000 rfl rfl rfl (by norm_num)

/-- C3: when the power-management-mode query succeeds and reports the
feature disabled, `setPowerLimit` returns the unsupported-operation error,
never invokes the hardware write, and leaves the gateway state unchanged. -/
theorem C3_unsupported_rejected (gw : Gateway) (st : GwState) (i : Int) (w : Nat)
    (hh : gw.handleOk i = true) (hp : gw.pmEnabled i = some false) :
    (setPowerLimit gw st i w).result = .error "power management not supported" ∧
    (setPowerLimit gw st i w).written = none ∧
    (setPowerLimit gw st i w).state = st := by
  unfold setPowerLimit
  simp [hh, hp]

theorem C3_unsupported_rejected_witness :
    (setPowerLimit gwUnsup (mkState 200000) 0 150).result =
      .error "power management not supported" ∧
    (setPowerLimit gwUnsup (mkState 200000) 0 150).written = none ∧
    (setPowerLimit gwUnsup (mkState 200000) 0 150).state = mkState 200000 :=
  C3_unsupported_rejected gwUnsup (mkState 200000) 0 150 rfl rfl

/-- C10: the watts-to-milliwatts conversion is `uint32` arithmetic, so the
value fed to the clamp is `(w*1000) mod 2^32`; and there is a watts value
`w` with `w*1000 ≥ 2^32` whose wrapped value falls below the device
minimum, making the setter silently apply the minimum limit even though
`w*1000` exceeds the maximum. -/
theorem C10_uint32_wrap (gw : Gateway) (st : GwState) (i : Int) (w minMW maxMW : Nat)
    (hh : gw.handleOk i = true) (hp : gw.pmEnabled i = some true)
    (hc : gw.constraints i = some (minMW, maxMW)) :
    ((setPowerLimit gw st i w).written =
      some (if (w * 1000) % UINT32 < minMW then minMW
            else if maxMW < (w * 1000) % UINT32 then maxMW
            else (w * 1000) % UINT32)) ∧
    (∃ wBig : Nat, wBig < UINT32 ∧ UINT32 ≤ wBig * 1000 ∧
      gwStd.constraints 0 = some (100000, 300000) ∧
      (wBig * 1000) % UINT32 < 100000 ∧ 300000 < wBig * 1000 ∧
      (setPowerLimit gwStd (mkState 200000) 0 wBig).written = some 100000) := by
  constructor
  · have hw : (setPowerLimit gw st i w).written = some (clampMW w minMW maxMW) := by
      unfold setPowerLimit
      by_cases hwr : gw.writeOk i (clampMW w minMW maxMW) <;> simp [hh, hp, hc, hwr]
    rw [hw]
    rfl
  · refine ⟨4294968, by norm_num [UINT32], by norm_num [UINT32], rfl, ?_, by norm_num, rfl⟩
    norm_num [UINT32]

theorem C10_uint32_wrap_witness :
    ((setPowerLimit gwStd (mkState 200000) 0 150).written =
      some (if (150 * 1000) % UINT32 < 100000 then 100000
            else if 300000 < (150 * 1000) % UINT32 then 300000
            else (150 * 1000) % UINT32)) ∧
    (∃ wBig : Nat, wBig < UINT32 ∧ UINT32 ≤ wBig * 1000 ∧
      gwStd.constraints 0 = some (100000, 300000) ∧
      (wBig * 1000) % UINT32 < 100000 ∧ 300000 < wBig * 1000 ∧
      (setPowerLimit gwStd (mkState 200000) 0 wBig).written = some 100000) :=
  C10_uint32_wrap gwStd (mkState 200000) 0 150 100000 300000 rfl rfl rfl

/-- C2 counterexample: on `gwCurFail` the current-limit read of device 1
fails, so `getGPUInfo` aborts that device's record; but the refresh loop
executes `continue` without assigning the slot, so the cache keeps the Go
zero value — index 0 and empty name — not the record built so far, whose
index would be 1 and whose name query returned `GPU-B`. -/
theorem C2_counterexample :
    getGPUInfo gwCurFail (mkState 200000) 1 = .error "failed to get current power limit" ∧
    gwCurFail.nameRes 1 = some "GPU-B" ∧
    (buildCache gwCurFail (mkState 200000) 2)[1]? = some GPUInfo.zero ∧
    GPUInfo.zero.index ≠ 1 ∧
    GPUInfo.zero.name ≠ "GPU-B" := by
  exact ⟨rfl, rfl, rfl, by decide, by decide⟩

/-- C2 (amended): when a supported device's current-limit or constraints
read fails during a refresh, the refresh logs a warning and aborts only
that device's record, but the record it had built so far is discarded
(the loop skips the assignment): the cache entry for that device remains
the all-zero record, while the device still occupies its slot — the cache
keeps one entry per enumerated index. -/
theorem C2_failed_device_zero_slot (gw : Gateway) (st : GwState) (count i : Nat)
    (e : String) (hi : i < count)
    (he : getGPUInfo gw st (Int.ofNat i) = .error e) :
    (buildCache gw st count).length = count ∧
    (buildCache gw st count)[i]? = some GPUInfo.zero := by
  constructor
  · simp [buildCache]
  · have he2 : getGPUInfo gw st ((i : Nat) : Int) = .error e := he
    simp [buildCache, List.getElem?_map, List.getElem?_range, hi, he2]

theorem C2_failed_device_zero_slot_witness :
    (buildCache gwCurFail (mkState 200000) 2).length = 2 ∧
    (buildCache gwCurFail (mkState 200000) 2)[1]? = some GPUInfo.zero :=
  C2_failed_device_zero_slot gwCurFail (mkState 200000) 2 1
    "failed to get current power limit" (by norm_num) rfl

/-- C4: after any successful read against a gateway whose current limit
lies within its reported constraint bounds, and after any successful
write, a record with the supported flag set satisfies
`minLimit ≤ powerLimit ≤ maxLimit` — integer division of the milliwatt
values by 1000 preserves the ordering. -/
theorem C4_limit_invariant (gw : Gateway) (st : GwState) (i : Int) (w minMW maxMW : Nat)
    (hc : gw.constraints i = some (minMW, maxMW)) (hmm : minMW ≤ maxMW) :
    (∀ info, minMW ≤ st i → st i ≤ maxMW → getGPUInfo gw st i = .ok info →
      info.supported = true →
      info.minLimit ≤ info.powerLimit ∧ info.powerLimit ≤ info.maxLimit) ∧
    (∀ info, (setPowerLimit gw st i w).result = .ok info →
      info.supported = true →
      info.minLimit ≤ info.powerLimit ∧ info.powerLimit ≤ info.maxLimit) := by
  constructor
  · intro info h1 h2 h hsup
    obtain ⟨-, hpl, hmin, hmax⟩ := getGPUInfo_ok_fields gw st i minMW maxMW info hc h hsup
    rw [hpl, hmin, hmax]
    exact ⟨Nat.div_le_div_right h1, Nat.div_le_div_right h2⟩
  · intro info h hsup
    obtain ⟨minL, maxL, hc2, hh, hp, hwr, hread⟩ := setPowerLimit_ok_means gw st i w info h
    rw [hc] at hc2
    obtain ⟨rfl, rfl⟩ : minMW = minL ∧ maxMW = maxL := by
      have := Option.some.inj hc2
      exact ⟨congrArg Prod.fst this, congrArg Prod.snd this⟩
    obtain ⟨-, hpl, hmin, hmax⟩ :=
      getGPUInfo_ok_fields gw (updState st i (clampMW w minMW maxMW)) i minMW maxMW info hc
        hread hsup
    rw [hpl, hmin, hmax, updState_self]
    obtain ⟨hlo, hhi⟩ := clampMW_mem w minMW maxMW hmm
    exact ⟨Nat.div_le_div_right hlo, Nat.div_le_div_right hhi⟩

theorem C4_limit_invariant_witness :
    (∀ info, 100000 ≤ mkState 200000 0 → mkState 200000 0 ≤ 300000 →
      getGPUInfo gwStd (mkState 200000) 0 = .ok info →
      info.supported = true →
      info.minLimit ≤ info.powerLimit ∧ info.powerLimit ≤ info.maxLimit) ∧
    (∀ info, (setPowerLimit gwStd (mkState 200000) 0 150).result = .ok info →
      info.supported = true →
      info.minLimit ≤ info.powerLimit ∧ info.powerLimit ≤ info.maxLimit) :=
  C4_limit_invariant gwStd (mkState 200000) 0 150 100000 300000 rfl (by norm_num)

/-- C5: a cache refresh returns an error exactly when NVML initialization
or the device-count query fails, and then leaves the cache unchanged; on
success the cache is replaced by the fresh snapshot, which has exactly one
entry for every index in `[0, count)` — per-device failures never abort
the refresh, their entries are still present. -/
theorem C5_refresh_contract (gw : Gateway) (st : GwState) (old : List GPUInfo) :
    ((∃ e, initNVML gw st = .error e) ↔ (gw.initOk = false ∨ gw.deviceCount = none)) ∧
    ((∃ e, initNVML gw st = .error e) → refreshedCache gw st old = old) ∧
    (∀ count, gw.initOk = true → gw.deviceCount = some count →
      initNVML gw st = .ok (buildCache gw st count) ∧
      (buildCache gw st count).length = count ∧
      refreshedCache gw st old = buildCache gw st count ∧
      ∀ i, i < count → ∃ r, (buildCache gw st count)[i]? = some r) := by
  refine ⟨?_, ?_, ?_⟩
  · constructor
    · rintro ⟨e, he⟩
      by_cases h1 : gw.initOk
      · rcases h2 : gw.deviceCount with _ | count
        · exact Or.inr rfl
        · simp [initNVML, h1, h2] at he
      · exact Or.inl (by simpa using h1)
    · rintro (h1 | h2)
      · exact ⟨"failed to init NVML", by simp [initNVML, h1]⟩
      · by_cases h1 : gw.initOk
        · exact ⟨"failed to get device count", by simp [initNVML, h1, h2]⟩
        · exact ⟨"failed to init NVML", by simp [initNVML, h1]⟩
  · rintro ⟨e, he⟩
    simp [refreshedCache, he]
  · intro count h1 h2
    have hinit : initNVML gw st = .ok (buildCache gw st count) := by
      simp [initNVML, h1, h2]
    have hlen : (buildCache gw st count).length = count := by
      simp [buildCache]
    refine ⟨hinit, hlen, by simp [refreshedCache, hinit], ?_⟩
    intro i hi
    exact ⟨(buildCache gw st count).get ⟨i, by rw [hlen]; exact hi⟩,
      List.getElem?_eq_getElem (by rw [hlen]; exact hi)⟩

theorem C5_refresh_contract_witness :
    refreshedCache gwNoCount (mkState 200000) [] = [] ∧
    (buildCache gwStd (mkState 200000) 2).length = 2 := by
  constructor
  · exact (C5_refresh_contract gwNoCount (mkState 200000) []).2.1
      ⟨"failed to get device count", rfl⟩
  · exact ((C5_refresh_contract gwStd (mkState 200000) []).2.2 2 rfl rfl).2.1

theorem resOpt_eq_some (e : Except String GPUInfo) (info : GPUInfo) :
    resOpt e = some info ↔ e = .ok info := by
  cases e <;> simp [resOpt]

theorem setResult_ok_index (gw : Gateway) (i : Int) (w : Nat) (info : GPUInfo)
    (h : setResult gw i w = .ok info) : info.index = i := by
  obtain ⟨minL, maxL, -, -, -, -, hread⟩ :=
    setPowerLimit_ok_means gw (fun _ => 0) i w info h
  exact getGPUInfo_ok_index gw _ i info hread

/-- C6: with the device count available, a request whose mode is neither
`all` nor `manual` is rejected whole with the invalid-mode error; no
`setPowerLimit` call is made and the gateway state is untouched. -/
theorem C6_invalid_mode (gw : Gateway) (st : GwState) (req : PowerLimitRequest)
    (count : Nat) (hc : gw.deviceCount = some count)
    (h1 : req.mode ≠ "all") (h2 : req.mode ≠ "manual") :
    (setPowerLimitsHandler gw st req).response = .error "Invalid mode" ∧
    (setPowerLimitsHandler gw st req).calls = [] ∧
    (setPowerLimitsHandler gw st req).state = st := by
  unfold setPowerLimitsHandler
  simp [hc, h1, h2]

theorem C6_invalid_mode_witness :
    (setPowerLimitsHandler gwStd (mkState 200000) ⟨"bogus", 100, []⟩).response =
      .error "Invalid mode" ∧
    (setPowerLimitsHandler gwStd (mkState 200000) ⟨"bogus", 100, []⟩).calls = [] ∧
    (setPowerLimitsHandler gwStd (mkState 200000) ⟨"bogus", 100, []⟩).state =
      mkState 200000 :=
  C6_invalid_mode gwStd (mkState 200000) ⟨"bogus", 100, []⟩ 2 rfl
    (by decide) (by decide)

/-- C9: two successive `setPowerLimit` calls with the same index and watts
against the echoing gateway produce the same returned record, write the
same clamped value, and end in the same gateway state — the second call
causes no drift. -/
theorem C9_idempotent (gw : Gateway) (st : GwState) (i : Int) (w : Nat) :
    (setPowerLimit gw (setPowerLimit gw st i w).state i w).result =
      (setPowerLimit gw st i w).result ∧
    (setPowerLimit gw (setPowerLimit gw st i w).state i w).written =
      (setPowerLimit gw st i w).written ∧
    (setPowerLimit gw (setPowerLimit gw st i w).state i w).state =
      (setPowerLimit gw st i w).state := by
  refine ⟨?_, setPowerLimit_written_eq gw _ st i w, ?_⟩
  · rw [setPowerLimit_result_eq, setPowerLimit_result_eq]
  · rcases setPowerLimit_state_cases gw st i w with h | ⟨minL, maxL, hc, hh, hp, hw, h⟩
    · rw [h]
      exact h
    · rw [h, setPowerLimit_state_of_write gw _ i w minL maxL hh hp hc hw, updState_idem]

/-- C7: in mode `all` with `N` devices the dispatcher calls the setter
once per index, in increasing order, with the request watts; failures are
skipped without aborting, so when exactly device `k` fails the result list
has length `N-1` and contains the updated record of every other device. -/
theorem C7_all_mode (gw : Gateway) (st : GwState) (w N k : Nat)
    (hc : gw.deviceCount = some N) (hk : k < N)
    (hfail : resOk (setResult gw (Int.ofNat k) w) = false)
    (hok : ∀ i : Nat, i < N → i ≠ k → resOk (setResult gw (Int.ofNat i) w) = true) :
    (setPowerLimitsHandler gw st ⟨"all", w, []⟩).calls =
      (List.range N).map (fun i => (Int.ofNat i, w)) ∧
    ∀ l, (setPowerLimitsHandler gw st ⟨"all", w, []⟩).response = .ok l →
      l.length = N - 1 ∧
      (∀ info ∈ l, info.index ≠ Int.ofNat k) ∧
      ∀ i : Nat, i < N → i ≠ k →
        ∀ info, setResult gw (Int.ofNat i) w = .ok info → info ∈ l := by
  have hout : setPowerLimitsHandler gw st ⟨"all", w, []⟩ =
      ⟨.ok (applyAll gw w st ((List.range N).map Int.ofNat)).updated,
       (applyAll gw w st ((List.range N).map Int.ofNat)).calls,
       (applyAll gw w st ((List.range N).map Int.ofNat)).state⟩ := by
    unfold setPowerLimitsHandler
    simp [hc]
  obtain ⟨hupd, hcalls⟩ := applyAll_spec gw w ((List.range N).map Int.ofNat) st
  constructor
  · rw [hout]
    simp only [hcalls, List.map_map]
    rfl
  · intro l hl
    rw [hout] at hl
    have hl2 : l = ((List.range N).map Int.ofNat).filterMap
        (fun i => resOpt (setResult gw i w)) := by
      rw [← hupd]
      exact (Except.ok.inj hl).symm
    constructor
    · rw [hl2]
      have hmem : Int.ofNat k ∈ (List.range N).map Int.ofNat :=
        List.mem_map.mpr ⟨k, List.mem_range.mpr hk, rfl⟩
      have hnd : ((List.range N).map Int.ofNat).Nodup :=
        (List.nodup_range N).map (fun a b hab => Int.ofNat.inj hab)
      have hlen := filterMap_length_drop_one
        (fun i => resOpt (setResult gw i w)) (Int.ofNat k)
        ((List.range N).map Int.ofNat) hmem hnd
        (resOpt_none_of_not_ok _ (by simpa using hfail))
        (by
          rintro x hx hne
          obtain ⟨j, hj, rfl⟩ := List.mem_map.mp hx
          refine resOpt_isSome_of_ok _ (hok j (List.mem_range.mp hj) ?_)
          intro hjk
          exact hne (by rw [hjk]))
      rw [hlen]
      simp
    · constructor
      · intro info hinfo hidx
        rw [hl2] at hinfo
        obtain ⟨x, -, hres⟩ := List.mem_filterMap.mp hinfo
        have hok := (resOpt_eq_some _ info).mp hres
        have hx : info.index = x := setResult_ok_index gw x w info hok
        rw [hidx] at hx
        rw [← hx] at hok
        rw [resOk_of_ok _ info hok] at hfail
        cases hfail
      · intro i hi hne info hinfo
        rw [hl2]
        refine List.mem_filterMap.mpr ⟨Int.ofNat i, List.mem_map.mpr
          ⟨i, List.mem_range.mpr hi, rfl⟩, ?_⟩
        exact (resOpt_eq_some _ info).mpr hinfo

theorem C7_all_mode_witness :
    ((setPowerLimitsHandler gwWriteFail1 (mkState 200000) ⟨"all", 150, []⟩).calls =
      (List.range 2).map (fun i => (Int.ofNat i, 150)) ∧
    ∀ l, (setPowerLimitsHandler gwWriteFail1 (mkState 200000) ⟨"all", 150, []⟩).response =
        .ok l →
      l.length = 2 - 1 ∧
      (∀ info ∈ l, info.index ≠ Int.ofNat 1) ∧
      ∀ i : Nat, i < 2 → i ≠ 1 →
        ∀ info, setResult gwWriteFail1 (Int.ofNat i) 150 = .ok info → info ∈ l) :=
  C7_all_mode gwWriteFail1 (mkState 200000) 150 2 1 rfl (by norm_num) rfl
    (by decide)

/-- C8: in mode `manual`, every out-of-range pair of the request map is
skipped — no setter call, no entry in the results — while every in-range
pair is passed to the setter, and its updated record appears in the
results exactly when that call succeeds. -/
theorem C8_manual_mode (gw : Gateway) (st : GwState) (w0 count : Nat)
    (L : List (Int × Nat)) (hc : gw.deviceCount = some count) :
    (setPowerLimitsHandler gw st ⟨"manual", w0, L⟩).calls = L.filter (inRange count) ∧
    (setPowerLimitsHandler gw st ⟨"manual", w0, L⟩).response =
      .ok ((L.filter (inRange count)).filterMap (fun p => resOpt (setResult gw p.1 p.2))) ∧
    (∀ q ∈ (setPowerLimitsHandler gw st ⟨"manual", w0, L⟩).calls,
      inRange count q = true) ∧
    (∀ p ∈ L, inRange count p = false →
      p ∉ (setPowerLimitsHandler gw st ⟨"manual", w0, L⟩).calls) ∧
    (∀ p ∈ L, inRange count p = true →
      p ∈ (setPowerLimitsHandler gw st ⟨"manual", w0, L⟩).calls) ∧
    (∀ l, (setPowerLimitsHandler gw st ⟨"manual", w0, L⟩).response = .ok l →
      (∀ info ∈ l, 0 ≤ info.index ∧ info.index < (count : Int)) ∧
      ∀ p ∈ L, inRange count p = true →
        ((∃ info, setResult gw p.1 p.2 = .ok info ∧ info ∈ l) ↔
          resOk (setResult gw p.1 p.2) = true)) := by
  have hout : setPowerLimitsHandler gw st ⟨"manual", w0, L⟩ =
      ⟨.ok (applyManual gw count st L).updated,
       (applyManual gw count st L).calls,
       (applyManual gw count st L).state⟩ := by
    unfold setPowerLimitsHandler
    simp [hc]
  obtain ⟨hupd, hcalls⟩ := applyManual_spec gw count L st
  rw [hout]
  simp only []
  refine ⟨hcalls, by rw [hupd], ?_, ?_, ?_, ?_⟩
  · intro q hq
    rw [hcalls] at hq
    exact (List.mem_filter.mp hq).2
  · intro p hp hout hin
    rw [hcalls] at hin
    rw [(List.mem_filter.mp hin).2] at hout
    cases hout
  · intro p hp hin
    rw [hcalls]
    exact List.mem_filter.mpr ⟨hp, hin⟩
  · intro l hl
    have hl2 : l = (L.filter (inRange count)).filterMap
        (fun p => resOpt (setResult gw p.1 p.2)) := by
      rw [← hupd]
      exact (Except.ok.inj hl).symm
    constructor
    · intro info hinfo
      rw [hl2] at hinfo
      obtain ⟨p, hpmem, hpres⟩ := List.mem_filterMap.mp hinfo
      have hok := (resOpt_eq_some _ info).mp hpres
      have hidx := setResult_ok_index gw p.1 p.2 info hok
      have hinr : inRange count p = true := (List.mem_filter.mp hpmem).2
      rw [hidx]
      exact of_decide_eq_true hinr
    · intro p hp hin
      constructor
      · rintro ⟨info, hok, -⟩
        exact resOk_of_ok _ info hok
      · intro hok
        cases hres : setResult gw p.1 p.2 with
        | error e => rw [hres] at hok; cases hok
        | ok info =>
          refine ⟨info, rfl, ?_⟩
          rw [hl2]
          refine List.mem_filterMap.mpr ⟨p, List.mem_filter.mpr ⟨hp, hin⟩, ?_⟩
          rw [hres]
          rfl

theorem C8_manual_mode_witness :
    ((setPowerLimitsHandler gwStd (mkState 200000) ⟨"manual", 0, [((5 : Int), 150), ((0 : Int), 150)]⟩).calls =
      [((5 : Int), 150), ((0 : Int), 150)].filter (inRange 2) ∧
    (setPowerLimitsHandler gwStd (mkState 200000) ⟨"manual", 0, [((5 : Int), 150), ((0 : Int), 150)]⟩).response =
      .ok (([((5 : Int), 150), ((0 : Int), 150)].filter (inRange 2)).filterMap
        (fun p => resOpt (setResult gwStd p.1 p.2))) ∧
    (∀ q ∈ (setPowerLimitsHandler gwStd (mkState 200000) ⟨"manual", 0, [((5 : Int), 150), ((0 : Int), 150)]⟩).calls,
      inRange 2 q = true) ∧
    (∀ p ∈ [((5 : Int), 150), ((0 : Int), 150)], inRange 2 p = false →
      p ∉ (setPowerLimitsHandler gwStd (mkState 200000) ⟨"manual", 0, [((5 : Int), 150), ((0 : Int), 150)]⟩).calls) ∧
    (∀ p ∈ [((5 : Int), 150), ((0 : Int), 150)], inRange 2 p = true →
      p ∈ (setPowerLimitsHandler gwStd (mkState 200000) ⟨"manual", 0, [((5 : Int), 150), ((0 : Int), 150)]⟩).calls) ∧
    (∀ l, (setPowerLimitsHandler gwStd (mkState 200000) ⟨"manual", 0, [((5 : Int), 150), ((0 : Int), 150)]⟩).response = .ok l →
      (∀ info ∈ l, 0 ≤ info.index ∧ info.index < ((2 : Nat) : Int)) ∧
      ∀ p ∈ [((5 : Int), 150), ((0 : Int), 150)], inRange 2 p = true →
        ((∃ info, setResult gwStd p.1 p.2 = .ok info ∧ info ∈ l) ↔
          resOk (setResult gwStd p.1 p.2) = true))) :=
  C8_manual_mode gwStd (mkState 200000) 0 2 [((5 : Int), 150), ((0 : Int), 150)] rfl
